import Mathlib

/-!
Shallow embedding of the chat route of the gemini-chatbot repository
(`app/(chat)/api/chat/route.ts`): the POST handler with its tool registry
(`createReservation`, `verifyPayment`, `displayBoardingPass`, the chat-save
callback `onFinish`) and the DELETE handler.

External collaborators (the hosted model, the database queries in
`@/db/queries`, `generateUUID` in `@/lib/utils`, the pricing function in
`@/ai/actions`, `convertToCoreMessages` from the `ai` SDK) are not under
`src/`; where their behaviour matters they are modelled from the spec, with a
doc comment saying so.  Every handler and tool execution is embedded as a pure
function from its inputs (parsed request, the value `auth()` resolves to, the
current stores) to its result, the updated stores, and the list of
collaborator calls it performed.
-/

namespace GeminiChatbot

/-- Untyped JSON values: the type of a reservation's `details` blob as it
comes back from the database (TypeScript `unknown`). -/
inductive Json where
  | null
  | bool (b : Bool)
  | num (n : Int)
  | str (s : String)
  | arr (elems : List Json)
  | obj (fields : List (String × Json))

/-- Field lookup on a JSON object (`undefined`, i.e. `none`, on non-objects
and missing keys) — how Zod reads a property during `safeParse`. -/
def Json.getField : Json → String → Option Json
  | .obj fields, key => lookupField fields key
  | _, _ => none
where
  lookupField : List (String × Json) → String → Option Json
    | [], _ => none
    | (k, v) :: rest, key => if k = key then some v else lookupField rest key

/-- `z.string()`: accepts exactly JSON strings. -/
def parseZodString : Json → Option String
  | .str s => some s
  | _ => none

/-- `z.number()`: accepts exactly JSON numbers. -/
def parseZodNumber : Json → Option Int
  | .num n => some n
  | _ => none

/-- Elementwise validation of the members of a `z.string().array()`. -/
def parseStringElems : List Json → Option (List String)
  | [] => some []
  | j :: js =>
    match parseZodString j, parseStringElems js with
    | some s, some ss => some (s :: ss)
    | _, _ => none

/-- `z.string().array()`: a JSON array whose members are all strings. -/
def parseZodStringArray : Json → Option (List String)
  | .arr elems => parseStringElems elems
  | _ => none

/-- The departure/arrival value object of `ReservationDetailsSchema`:
`{cityName, airportCode, timestamp, gate, terminal}`, all strings. -/
structure FlightEndpoint where
  cityName : String
  airportCode : String
  timestamp : String
  gate : String
  terminal : String
deriving DecidableEq, Repr

/-- The typed payload of the `createReservation` tool parameters:
`{seats, flightNumber, departure, arrival, passengerName}`. -/
structure ReservationProps where
  seats : List String
  flightNumber : String
  departure : FlightEndpoint
  arrival : FlightEndpoint
  passengerName : String
deriving DecidableEq, Repr

/-- The stored details record `{...props, totalPriceInUSD}` as typed by
`ReservationDetailsSchema`. -/
structure ReservationDetails extends ReservationProps where
  totalPriceInUSD : Int
deriving DecidableEq, Repr

/-- Validation of the nested `departure`/`arrival` object of
`ReservationDetailsSchema`. -/
def parseEndpoint (j : Json) : Option FlightEndpoint := do
  let cityName ← (j.getField "cityName").bind parseZodString
  let airportCode ← (j.getField "airportCode").bind parseZodString
  let timestamp ← (j.getField "timestamp").bind parseZodString
  let gate ← (j.getField "gate").bind parseZodString
  let terminal ← (j.getField "terminal").bind parseZodString
  pure ⟨cityName, airportCode, timestamp, gate, terminal⟩

/-- `ReservationDetailsSchema.safeParse` (route.ts lines 23-42): validates an
untyped details blob against the schema
`{seats: string[], flightNumber: string, departure, arrival, passengerName:
string, totalPriceInUSD: number}`; `none` models a failed `safeParse`
(`success: false`). -/
def ReservationDetailsSchema.safeParse (j : Json) : Option ReservationDetails := do
  let seats ← (j.getField "seats").bind parseZodStringArray
  let flightNumber ← (j.getField "flightNumber").bind parseZodString
  let departure ← (j.getField "departure").bind parseEndpoint
  let arrival ← (j.getField "arrival").bind parseEndpoint
  let passengerName ← (j.getField "passengerName").bind parseZodString
  let totalPriceInUSD ← (j.getField "totalPriceInUSD").bind parseZodNumber
  pure ⟨⟨seats, flightNumber, departure, arrival, passengerName⟩, totalPriceInUSD⟩

/-- JSON encoding of a departure/arrival value object, as it is serialized
into the reservation's `details` column. -/
def encodeEndpoint (e : FlightEndpoint) : Json :=
  .obj [("cityName", .str e.cityName), ("airportCode", .str e.airportCode),
        ("timestamp", .str e.timestamp), ("gate", .str e.gate),
        ("terminal", .str e.terminal)]

/-- The JSON blob `detailsToStore = { ...props, totalPriceInUSD }` that
`createReservation.execute` persists as the reservation's `details`. -/
def encodeDetails (p : ReservationProps) (totalPriceInUSD : Int) : Json :=
  .obj [("seats", .arr (p.seats.map .str)),
        ("flightNumber", .str p.flightNumber),
        ("departure", encodeEndpoint p.departure),
        ("arrival", encodeEndpoint p.arrival),
        ("passengerName", .str p.passengerName),
        ("totalPriceInUSD", .num totalPriceInUSD)]

/-- A persisted reservation row: `{id, userId, details, hasCompletedPayment}`.
The details column is untyped JSON, which is why the boarding-pass tool has to
validate it. -/
structure Reservation where
  id : Nat
  userId : String
  details : Json
  hasCompletedPayment : Bool

/-- Modelled from the spec: the reservation table behind `@/db/queries`
(not under `src/`), a list of rows. -/
abbrev ReservationStore := List Reservation

/-- Modelled from the spec: `getReservationById` from `@/db/queries`
(not under `src/`) — "record or null". -/
def getReservationById (store : ReservationStore) (id : Nat) : Option Reservation :=
  List.find? (fun r => r.id = id) store

/-- Modelled from the spec: `createReservation` from `@/db/queries`
(not under `src/`) — inserts the row; the payment flag starts false and is
flipped only by the external payment-authorization flow. -/
def dbCreateReservation (store : ReservationStore) (id : Nat) (userId : String)
    (details : Json) : ReservationStore :=
  store ++ [⟨id, userId, details, false⟩]

/-- Modelled from the spec: `generateUUID` from `@/lib/utils`
(not under `src/`) — produces a fresh reservation id not previously seen in
the store. -/
def generateUUID (store : ReservationStore) : Nat :=
  (store.map Reservation.id).foldr max 0 + 1

/-- A chat message as received in the POST body: `{role, content}`. -/
structure Message where
  role : String
  content : String
deriving DecidableEq, Repr

/-- A core message as exchanged with the model and persisted. -/
structure CoreMessage where
  role : String
  content : String
deriving DecidableEq, Repr

/-- Modelled from the spec: `convertToCoreMessages` from the external `ai`
SDK — normalizes the incoming messages into core messages, preserving role
and content. -/
def convertToCoreMessages (ms : List Message) : List CoreMessage :=
  ms.map fun m => ⟨m.role, m.content⟩

/-- A persisted chat row: `{id, userId, messages}`. -/
structure Chat where
  id : String
  userId : String
  messages : List CoreMessage
deriving DecidableEq, Repr

/-- Modelled from the spec: the chat table behind `@/db/queries`
(not under `src/`). -/
abbrev ChatStore := List Chat

/-- Modelled from the spec: `getChatById` from `@/db/queries`
(not under `src/`) — "record or null". -/
def getChatById (chats : ChatStore) (id : String) : Option Chat :=
  List.find? (fun c => c.id = id) chats

/-- Modelled from the spec: `saveChat` from `@/db/queries` (not under
`src/`) — persists the message list under the chat id, scoped to the user id
(upsert: a chat is created on first save, replaced afterwards). -/
def saveChat (chats : ChatStore) (id : String) (messages : List CoreMessage)
    (userId : String) : ChatStore :=
  if chats.any (fun c => c.id = id) then
    chats.map fun c => if c.id = id then ⟨id, userId, messages⟩ else c
  else
    chats ++ [⟨id, userId, messages⟩]

/-- Modelled from the spec: `deleteChatById` from `@/db/queries`
(not under `src/`) — removes the chat with the given id. -/
def deleteChatById (chats : ChatStore) (id : String) : ChatStore :=
  chats.filter fun c => c.id ≠ id

/-- `session.user`, whose `id` may be absent. -/
structure SessionUser where
  userId : Option String
deriving DecidableEq, Repr

/-- A session as resolved by `auth()`; its `user` field may be absent.
`auth()` itself resolves to `Option Session`. -/
structure Session where
  user : Option SessionUser
deriving DecidableEq, Repr

/-- The JavaScript truthiness check `session?.user?.id` used by the handlers:
yields the user id only when the session, its user, and a non-empty id string
are all present. -/
def sessionUserId (s : Option Session) : Option String :=
  match (s.bind Session.user).bind SessionUser.userId with
  | some uid => if uid.isEmpty then none else some uid
  | none => none

/-- One collaborator call performed by a handler or tool execution, recorded
in order.  `auth` is a session re-resolution; the rest are persistence-layer
calls. -/
inductive DbCall where
  | auth
  | generateReservationPrice
  | getReservationById (id : Nat)
  | createReservation (id : Nat) (userId : String)
  | getChatById (id : String)
  | saveChat (id : String) (userId : String)
  | deleteChatById (id : String)
deriving DecidableEq, Repr

/-- Result of `createReservation.execute` (route.ts lines 87-107): either the
full record `{id, ...detailsToStore}` or the structured error object. -/
inductive CreateReservationResult where
  | ok (id : Nat) (details : ReservationDetails)
  | error (msg : String)
deriving DecidableEq, Repr

/-- `createReservation.execute` (route.ts lines 87-107): computes the price
via `generateReservationPrice(props)`, re-resolves the session with `auth()`
(`execAuth` is the value that call resolves to), generates a fresh id, and —
only when `session?.user?.id` is live — persists
`{id, userId, details: {...props, totalPriceInUSD}}` and returns the combined
record; otherwise returns a structured error.  `price` stands for the
external pricing function `generateReservationPrice` from `@/ai/actions`.
Returns (result, updated store, collaborator calls in order). -/
def createReservationExecute (price : ReservationProps → Int)
    (execAuth : Option Session) (props : ReservationProps)
    (store : ReservationStore) :
    CreateReservationResult × ReservationStore × List DbCall :=
  let totalPriceInUSD := price props
  let reservationId := generateUUID store
  match sessionUserId execAuth with
  | some uid =>
      let detailsToStore := encodeDetails props totalPriceInUSD
      (.ok reservationId ⟨props, totalPriceInUSD⟩,
       dbCreateReservation store reservationId uid detailsToStore,
       [.generateReservationPrice, .auth, .createReservation reservationId uid])
  | none =>
      (.error "User session lost. Cannot create reservation.", store,
       [.generateReservationPrice, .auth])

/-- Result of `verifyPayment.execute`: the payment flag or a structured
error. -/
inductive VerifyPaymentResult where
  | ok (hasCompletedPayment : Bool)
  | error (msg : String)
deriving DecidableEq, Repr

/-- The value `verifyPayment.execute` (route.ts lines 461-487) returns: the
reservation's `{hasCompletedPayment}` flag, or a not-found error. -/
def verifyPaymentResult (store : ReservationStore) (reservationId : Nat) :
    VerifyPaymentResult :=
  match getReservationById store reservationId with
  | none => .error ("Reservation " ++ toString reservationId ++ " not found.")
  | some reservation => .ok reservation.hasCompletedPayment

/-- `verifyPayment.execute` (route.ts lines 461-487): performs exactly one
collaborator call, the reservation lookup.  The ownership re-check against
`auth()` exists only in comments in the source, so no `auth` call is
performed.  Returns (result, collaborator calls). -/
def verifyPaymentExecute (store : ReservationStore) (reservationId : Nat) :
    VerifyPaymentResult × List DbCall :=
  (verifyPaymentResult store reservationId, [.getReservationById reservationId])

/-- The boarding-pass payload built by `displayBoardingPass.execute` from the
validated stored details. -/
structure BoardingPassData where
  reservationId : Nat
  passengerName : String
  flightNumber : String
  seat : String
  departure : FlightEndpoint
  arrival : FlightEndpoint
deriving DecidableEq, Repr

/-- Result of `displayBoardingPass.execute`: boarding data or a structured
error object carrying no passenger/flight fields. -/
inductive BoardingPassResult where
  | pass (data : BoardingPassData)
  | error (msg : String)
deriving DecidableEq, Repr

/-- The value `displayBoardingPass.execute` (route.ts lines 112-164)
returns: fetches the reservation fresh by id (the only parameter it uses),
refuses when it is missing or `hasCompletedPayment` is false, validates the
stored `details` blob against `ReservationDetailsSchema` and, only on
success, projects the boarding-pass fields from the parsed stored record. -/
def displayBoardingPassResult (store : ReservationStore) (reservationId : Nat) :
    BoardingPassResult :=
  match getReservationById store reservationId with
  | none => .error ("Reservation " ++ toString reservationId ++ " not found.")
  | some reservation =>
      if !reservation.hasCompletedPayment then
        .error "Payment not completed for this reservation. Cannot display boarding pass."
      else
        match ReservationDetailsSchema.safeParse reservation.details with
        | none => .error "Invalid reservation details structure in database."
        | some parsedDetails =>
            .pass
              { reservationId := reservation.id
                passengerName := parsedDetails.passengerName
                flightNumber := parsedDetails.flightNumber
                seat := String.intercalate ", " parsedDetails.seats
                departure := parsedDetails.departure
                arrival := parsedDetails.arrival }

/-- `displayBoardingPass.execute` (route.ts lines 112-164): performs exactly
one collaborator call, the reservation lookup; no `auth` call occurs during
execution.  Returns (result, collaborator calls). -/
def displayBoardingPassExecute (store : ReservationStore) (reservationId : Nat) :
    BoardingPassResult × List DbCall :=
  (displayBoardingPassResult store reservationId, [.getReservationById reservationId])

/-- The parsed POST body `{id, messages}`. -/
structure PostRequest where
  id : String
  messages : List Message
deriving DecidableEq, Repr

/-- `coreMessages` (route.ts lines 62-64): the incoming messages converted to
core messages with every empty-content entry removed.  This one list is both
what is sent to the model and the prefix of what is persisted. -/
def coreMessagesOf (messages : List Message) : List CoreMessage :=
  (convertToCoreMessages messages).filter fun message => message.content.length > 0

/-- `onFinish` (route.ts lines 166-178): runs when the stream completes.
Guarded by `session.user?.id` on the session captured at request entry (no
fresh `auth()` call); when live, persists `[...coreMessages,
...responseMessages]` under the chat id for that user.  A save failure is
logged and swallowed, which does not change the persisted-state semantics
modelled here.  Returns (updated chat store, collaborator calls). -/
def onFinish (session : Session) (chatId : String)
    (coreMessages responseMessages : List CoreMessage) (chats : ChatStore) :
    ChatStore × List DbCall :=
  match sessionUserId (some session) with
  | some uid =>
      (saveChat chats chatId (coreMessages ++ responseMessages) uid,
       [.saveChat chatId uid])
  | none => (chats, [])

/-- The observable outcome of the POST handler: an early 401, or a streaming
response whose `modelMessages` are the messages handed to the hosted model. -/
inductive PostResult where
  | unauthorized (status : Nat)
  | stream (modelMessages : List CoreMessage)
deriving DecidableEq, Repr

/-- The POST handler (route.ts lines 52-210) through stream completion:
resolves `auth()` (`authResult`), returns 401 when the session is null,
otherwise streams with `messages := coreMessages` and, when the stream
completes with `responseMessages`, runs `onFinish`.  Returns (response,
updated chat store, collaborator calls after the entry `auth`). -/
def POST (req : PostRequest) (authResult : Option Session)
    (responseMessages : List CoreMessage) (chats : ChatStore) :
    PostResult × ChatStore × List DbCall :=
  match authResult with
  | none => (.unauthorized 401, chats, [])
  | some session =>
      let coreMessages := coreMessagesOf req.messages
      let finish := onFinish session req.id coreMessages responseMessages chats
      (.stream coreMessages, finish.1, finish.2)

/-- An HTTP response of the DELETE handler: status code and body text. -/
structure HttpResponse where
  status : Nat
  body : String
deriving DecidableEq, Repr

/-- The DELETE handler (route.ts lines 212-264): 400 when the `id` query
parameter is missing (before `auth()` and before any store access), 401 when
`!session || !session.user?.id`, 404 when the chat is missing, 403 when the
caller does not own it, otherwise deletes and returns 200.  `authResult` is
the value `auth()` resolves to when reached.  Returns (response, updated chat
store, collaborator calls in order). -/
def DELETE (idParam : Option String) (authResult : Option Session)
    (chats : ChatStore) : HttpResponse × ChatStore × List DbCall :=
  match idParam with
  | none => (⟨400, "Chat ID is required"⟩, chats, [])
  | some id =>
    match sessionUserId authResult with
    | none => (⟨401, "Unauthorized"⟩, chats, [.auth])
    | some uid =>
      match getChatById chats id with
      | none => (⟨404, "Chat not found"⟩, chats, [.auth, .getChatById id])
      | some chat =>
        if chat.userId ≠ uid then
          (⟨403, "Forbidden"⟩, chats, [.auth, .getChatById id])
        else
          (⟨200, "Chat deleted successfully"⟩, deleteChatById chats id,
           [.auth, .getChatById id, .deleteChatById id])

/-! Concrete sample data used by the witness theorems. -/

/-- A sample departure endpoint. -/
def demoDeparture : FlightEndpoint :=
  ⟨"San Francisco", "SFO", "2026-10-11T10:00:00Z", "B7", "2"⟩

/-- A sample arrival endpoint. -/
def demoArrival : FlightEndpoint :=
  ⟨"New York", "JFK", "2026-10-11T18:30:00Z", "C2", "4"⟩

/-- Sample reservation props. -/
def demoProps : ReservationProps :=
  ⟨["12A", "12B"], "UA100", demoDeparture, demoArrival, "Jane Doe"⟩

/-- A payment-completed reservation with well-formed stored details. -/
def demoPaidReservation : Reservation :=
  ⟨1, "user-1", encodeDetails demoProps 650, true⟩

/-- A reservation whose payment flag is still false. -/
def demoUnpaidReservation : Reservation :=
  ⟨2, "user-1", encodeDetails demoProps 650, false⟩

/-- A payment-completed reservation whose stored details blob is malformed. -/
def demoBadDetailsReservation : Reservation :=
  ⟨3, "user-1", Json.null, true⟩

/-- A sample reservation store. -/
def demoStore : ReservationStore :=
  [demoPaidReservation, demoUnpaidReservation, demoBadDetailsReservation]

/-- A live session for user-1. -/
def demoSession : Session := ⟨some ⟨some "user-1"⟩⟩

/-- A chat owned by alice. -/
def demoChat : Chat := ⟨"chat-1", "alice", [⟨"user", "book SFO to JFK"⟩]⟩

/-- A sample chat store. -/
def demoChats : ChatStore := [demoChat]

/-! Helper lemmas about the embedded collaborators. -/

/-- String-array validation round-trips on encoded string lists. -/
theorem parseStringElems_map (xs : List String) :
    parseStringElems (xs.map Json.str) = some xs := by
  induction xs with
  | nil => rfl
  | cons x xs ih => simp [parseStringElems, parseZodString, ih]

/-- Endpoint validation round-trips on encoded endpoints. -/
theorem parseEndpoint_encodeEndpoint (e : FlightEndpoint) :
    parseEndpoint (encodeEndpoint e) = some e := by
  cases e
  rfl

/-- Schema validation round-trips on the details blob that
`createReservation.execute` persists: the stored record decodes to exactly
the props plus the computed price. -/
theorem safeParse_encodeDetails (p : ReservationProps) (c : Int) :
    ReservationDetailsSchema.safeParse (encodeDetails p c) = some ⟨p, c⟩ := by
  cases p
  simp [ReservationDetailsSchema.safeParse, encodeDetails, Json.getField,
        Json.getField.lookupField, parseZodStringArray, parseZodNumber,
        parseZodString, parseStringElems_map, parseEndpoint_encodeEndpoint]

/-- Every member of a list of naturals is bounded by its `foldr max 0`. -/
theorem le_foldr_max (xs : List Nat) (x : Nat) (hx : x ∈ xs) :
    x ≤ xs.foldr max 0 := by
  induction xs with
  | nil => cases hx
  | cons a as ih =>
    rcases List.mem_cons.mp hx with h | h
    · subst h; exact le_max_left _ _
    · exact le_trans (ih h) (le_max_right _ _)

/-- The generated reservation id is not previously seen in the store. -/
theorem generateUUID_fresh (store : ReservationStore) :
    ∀ r ∈ store, r.id ≠ generateUUID store := by
  intro r hr
  have hle : r.id ≤ (store.map Reservation.id).foldr max 0 :=
    le_foldr_max _ _ (List.mem_map_of_mem Reservation.id hr)
  unfold generateUUID
  omega

/-- Finding a chat by id in a list ending with a freshly saved record,
when no earlier record carries that id, yields the fresh record. -/
theorem find?_chat_append (cs : List Chat) (id : String) (msgs : List CoreMessage)
    (uid : String) (h : ∀ c ∈ cs, c.id ≠ id) :
    List.find? (fun c => c.id = id) (cs ++ [(⟨id, uid, msgs⟩ : Chat)]) =
      some ⟨id, uid, msgs⟩ := by
  induction cs with
  | nil =>
    simp [List.find?_cons]
  | cons c cs ih =>
    have hc : ¬(c.id = id) := h c (List.mem_cons_self c cs)
    simp [List.find?_cons, hc, ih (fun x hx => h x (List.mem_cons_of_mem _ hx))]

/-- Finding a chat by id after replacing each record carrying that id with a
fresh record yields the fresh record, provided some record carried the id. -/
theorem find?_chat_replace (cs : List Chat) (id : String) (msgs : List CoreMessage)
    (uid : String) (h : ∃ c ∈ cs, c.id = id) :
    List.find? (fun c => c.id = id)
      (cs.map fun c => if c.id = id then (⟨id, uid, msgs⟩ : Chat) else c) =
      some ⟨id, uid, msgs⟩ := by
  induction cs with
  | nil => rcases h with ⟨c, hc, _⟩; cases hc
  | cons c cs ih =>
    by_cases hc : c.id = id
    · simp [List.find?_cons, hc]
    · have hex : ∃ x ∈ cs, x.id = id := by
        rcases h with ⟨x, hx, hxid⟩
        rcases List.mem_cons.mp hx with rfl | hx2
        · exact absurd hxid hc
        · exact ⟨x, hx2, hxid⟩
      simp [List.find?_cons, hc, ih hex]

/-- Looking a chat up right after `saveChat` yields exactly the saved
record. -/
theorem getChatById_saveChat (chats : ChatStore) (id : String)
    (msgs : List CoreMessage) (uid : String) :
    getChatById (saveChat chats id msgs uid) id = some ⟨id, uid, msgs⟩ := by
  unfold getChatById saveChat
  by_cases h : ∃ c ∈ chats, c.id = id
  · have hany : chats.any (fun c => c.id = id) = true := by
      simp only [List.any_eq_true, decide_eq_true_eq]
      exact h
    rw [if_pos hany]
    exact find?_chat_replace chats id msgs uid h
  · have hany : ¬(chats.any (fun c => c.id = id) = true) := by
      simp only [List.any_eq_true, decide_eq_true_eq]
      exact h
    rw [if_neg hany]
    push_neg at h
    exact find?_chat_append chats id msgs uid h

/-- `displayBoardingPass.execute` performs exactly one collaborator call, the
reservation lookup — in particular it never re-resolves `auth()`. -/
theorem displayBoardingPass_calls (store : ReservationStore) (rid : Nat) :
    (displayBoardingPassExecute store rid).2 = [DbCall.getReservationById rid] := rfl

/-- `verifyPayment.execute` performs exactly one collaborator call, the
reservation lookup — in particular it never re-resolves `auth()`. -/
theorem verifyPayment_calls (store : ReservationStore) (rid : Nat) :
    (verifyPaymentExecute store rid).2 = [DbCall.getReservationById rid] := rfl

/-! The claims. -/

/-- C1: For every reservation state, `displayBoardingPass` returns
passenger/flight boarding data only when the stored reservation's
`hasCompletedPayment` flag is true; whenever the flag is false it returns a
structured error payload (which, by the shape of `BoardingPassResult.error`,
carries no passenger or flight fields). -/
theorem displayBoardingPass_payment_gate (store : ReservationStore)
    (reservationId : Nat) :
    (∀ r, getReservationById store reservationId = some r →
      r.hasCompletedPayment = false →
      (displayBoardingPassExecute store reservationId).1 =
        .error "Payment not completed for this reservation. Cannot display boarding pass.") ∧
    (∀ d, (displayBoardingPassExecute store reservationId).1 = .pass d →
      ∃ r, getReservationById store reservationId = some r ∧
        r.hasCompletedPayment = true) := by
  constructor
  · intro r hr hflag
    simp [displayBoardingPassExecute, displayBoardingPassResult, hr, hflag]
  · intro d hd
    simp only [displayBoardingPassExecute, displayBoardingPassResult] at hd
    cases hr : getReservationById store reservationId with
    | none => rw [hr] at hd; simp at hd
    | some r =>
      rw [hr] at hd
      cases hflag : r.hasCompletedPayment with
      | true => exact ⟨r, rfl, hflag⟩
      | false => simp [hflag] at hd

/-- C1 witness: on the sample store, the unpaid reservation 2 yields the
payment error. -/
theorem displayBoardingPass_payment_gate_witness :
    (displayBoardingPassExecute demoStore 2).1 =
      .error "Payment not completed for this reservation. Cannot display boarding pass." :=
  (displayBoardingPass_payment_gate demoStore 2).1 demoUnpaidReservation rfl rfl

/-- C2: On an existing, payment-completed reservation, `displayBoardingPass`
schema-validates the stored details blob before any field is projected; the
projected fields come from the parsed stored record (the execute consumes
only the `reservationId` parameter, so nothing caller-echoed can appear); and
when validation fails the result is the structured error, never a success
payload. -/
theorem displayBoardingPass_validates_stored_details (store : ReservationStore)
    (reservationId : Nat) (r : Reservation)
    (hr : getReservationById store reservationId = some r)
    (hpaid : r.hasCompletedPayment = true) :
    (ReservationDetailsSchema.safeParse r.details = none →
      (displayBoardingPassExecute store reservationId).1 =
        .error "Invalid reservation details structure in database.") ∧
    (∀ d, ReservationDetailsSchema.safeParse r.details = some d →
      (displayBoardingPassExecute store reservationId).1 =
        .pass ⟨r.id, d.passengerName, d.flightNumber,
               String.intercalate ", " d.seats, d.departure, d.arrival⟩) := by
  constructor
  · intro hparse
    simp [displayBoardingPassExecute, displayBoardingPassResult, hr, hpaid, hparse]
  · intro d hparse
    simp [displayBoardingPassExecute, displayBoardingPassResult, hr, hpaid, hparse]

/-- C2 witness: the paid sample reservation 1 with well-formed stored details
yields the boarding pass projected from the stored record. -/
theorem displayBoardingPass_validates_stored_details_witness :
    (displayBoardingPassExecute demoStore 1).1 =
      .pass ⟨1, "Jane Doe", "UA100", "12A, 12B", demoDeparture, demoArrival⟩ :=
  (displayBoardingPass_validates_stored_details demoStore 1 demoPaidReservation
    rfl rfl).2 ⟨demoProps, 650⟩ rfl

/-- C3: A POST or DELETE request whose session resolution yields null gets a
401 response with no persistence effect: the stores are unchanged and no
`saveChat`, `createReservation`, or `deleteChatById` call occurs (for POST no
stream is even started, so no tool executes).  For DELETE, the session is
resolved only on requests that carry the `id` parameter — a missing id
returns 400 before `auth()` (see C9). -/
theorem unauthenticated_requests_rejected_without_persistence :
    (∀ req responseMessages chats,
      POST req none responseMessages chats = (.unauthorized 401, chats, [])) ∧
    (∀ id chats,
      DELETE (some id) none chats = (⟨401, "Unauthorized"⟩, chats, [.auth])) := by
  exact ⟨fun _ _ _ => rfl, fun _ _ => rfl⟩

/-- C4: If the re-checked session at `createReservation.execute` time is
absent or lacks a (non-empty) user id, the tool returns the structured error
and the reservation store is unchanged — no `createReservation` persistence
call occurs. -/
theorem createReservation_session_lost (price : ReservationProps → Int)
    (execAuth : Option Session) (props : ReservationProps)
    (store : ReservationStore) (h : sessionUserId execAuth = none) :
    createReservationExecute price execAuth props store =
      (.error "User session lost. Cannot create reservation.", store,
       [.generateReservationPrice, .auth]) := by
  simp [createReservationExecute, h]

/-- C4 witness: a session whose user carries no id leaves the sample store
untouched and yields the structured error. -/
theorem createReservation_session_lost_witness :
    createReservationExecute (fun _ => 650) (some ⟨some ⟨none⟩⟩) demoProps demoStore =
      (.error "User session lost. Cannot create reservation.", demoStore,
       [.generateReservationPrice, .auth]) :=
  createReservation_session_lost (fun _ => 650) (some ⟨some ⟨none⟩⟩) demoProps
    demoStore rfl

/-- C5: On a live session with user id, `createReservation.execute` persists
a record whose id is freshly generated and not previously seen in the store,
whose stored details blob is `{...props, totalPriceInUSD}` with the price
computed by the pricing function on the same props (the blob decodes back to
exactly that record), and returns the full persisted record
`{id, ...details, totalPriceInUSD}`. -/
theorem createReservation_success (price : ReservationProps → Int)
    (execAuth : Option Session) (props : ReservationProps)
    (store : ReservationStore) (uid : String)
    (h : sessionUserId execAuth = some uid) :
    createReservationExecute price execAuth props store =
      (.ok (generateUUID store) ⟨props, price props⟩,
       store ++ [⟨generateUUID store, uid, encodeDetails props (price props), false⟩],
       [.generateReservationPrice, .auth,
        .createReservation (generateUUID store) uid]) ∧
    (∀ r ∈ store, r.id ≠ generateUUID store) ∧
    ReservationDetailsSchema.safeParse (encodeDetails props (price props)) =
      some ⟨props, price props⟩ := by
  refine ⟨?_, generateUUID_fresh store, safeParse_encodeDetails props (price props)⟩
  simp [createReservationExecute, dbCreateReservation, h]

/-- C5 witness: creating a reservation for user-1 on the sample store
persists id 4 (fresh over ids 1, 2, 3) with the computed price. -/
theorem createReservation_success_witness :
    createReservationExecute (fun p => 100 * Int.ofNat p.seats.length)
        (some demoSession) demoProps demoStore =
      (.ok 4 ⟨demoProps, 200⟩,
       demoStore ++ [⟨4, "user-1", encodeDetails demoProps 200, false⟩],
       [.generateReservationPrice, .auth, .createReservation 4 "user-1"]) :=
  (createReservation_success (fun p => 100 * Int.ofNat p.seats.length)
    (some demoSession) demoProps demoStore "user-1" rfl).1

/-- C6: When the stream of a POST by a session carrying a user id completes,
the persisted chat under the request's chat id holds exactly the normalized
core messages followed by the model's response messages, and that same
empty-content-filtered list is what was sent to the model. -/
theorem persisted_chat_is_core_then_response (req : PostRequest)
    (session : Session) (uid : String)
    (responseMessages : List CoreMessage) (chats : ChatStore)
    (h : sessionUserId (some session) = some uid) :
    POST req (some session) responseMessages chats =
      (.stream (coreMessagesOf req.messages),
       saveChat chats req.id (coreMessagesOf req.messages ++ responseMessages) uid,
       [.saveChat req.id uid]) ∧
    getChatById
        (saveChat chats req.id (coreMessagesOf req.messages ++ responseMessages) uid)
        req.id =
      some ⟨req.id, uid, coreMessagesOf req.messages ++ responseMessages⟩ ∧
    coreMessagesOf req.messages =
      (convertToCoreMessages req.messages).filter
        (fun message => message.content.length > 0) := by
  refine ⟨?_, getChatById_saveChat chats req.id _ uid, rfl⟩
  simp [POST, onFinish, h]

/-- C6 witness: a POST with one empty-content and one real message persists
the filtered message followed by the response message. -/
theorem persisted_chat_is_core_then_response_witness :
    POST ⟨"chat-9", [⟨"user", ""⟩, ⟨"user", "book SFO to JFK"⟩]⟩ (some demoSession)
        [⟨"assistant", "On it."⟩] demoChats =
      (.stream [⟨"user", "book SFO to JFK"⟩],
       demoChats ++ [⟨"chat-9", "user-1",
         [⟨"user", "book SFO to JFK"⟩, ⟨"assistant", "On it."⟩]⟩],
       [.saveChat "chat-9" "user-1"]) :=
  (persisted_chat_is_core_then_response
    ⟨"chat-9", [⟨"user", ""⟩, ⟨"user", "book SFO to JFK"⟩]⟩ demoSession "user-1"
    [⟨"assistant", "On it."⟩] demoChats rfl).1

/-- C7: A DELETE by an authenticated user on an existing chat owned by a
different user returns 403, leaves the chat store unchanged, and performs no
`deleteChatById` call. -/
theorem delete_foreign_chat_forbidden (id : String) (authResult : Option Session)
    (uidB : String) (chats : ChatStore) (chat : Chat)
    (hs : sessionUserId authResult = some uidB)
    (hc : getChatById chats id = some chat)
    (hOwner : chat.userId ≠ uidB) :
    DELETE (some id) authResult chats =
      (⟨403, "Forbidden"⟩, chats, [.auth, .getChatById id]) ∧
    DbCall.deleteChatById id ∉ (DELETE (some id) authResult chats).2.2 := by
  have hmain : DELETE (some id) authResult chats =
      (⟨403, "Forbidden"⟩, chats, [.auth, .getChatById id]) := by
    simp [DELETE, hs, hc, hOwner]
  refine ⟨hmain, ?_⟩
  rw [hmain]
  simp

/-- C7 witness: bob deleting alice's chat gets 403 and the store keeps the
chat. -/
theorem delete_foreign_chat_forbidden_witness :
    DELETE (some "chat-1") (some ⟨some ⟨some "bob"⟩⟩) demoChats =
      (⟨403, "Forbidden"⟩, demoChats, [.auth, .getChatById "chat-1"]) :=
  (delete_foreign_chat_forbidden "chat-1" (some ⟨some ⟨some "bob"⟩⟩) "bob"
    demoChats demoChat rfl rfl (by decide)).1

/-- C8 counterexample: the claim that every tool execution touching a Chat or
Reservation re-validates the caller's identity at the point of the call is
false — `displayBoardingPass.execute` on the paid sample reservation reads
the store and returns full boarding data while performing no `auth` call at
all (its collaborator trace is exactly the reservation lookup). -/
theorem tool_identity_recheck_counterexample :
    (displayBoardingPassExecute demoStore 1).2 = [DbCall.getReservationById 1] ∧
    DbCall.auth ∉ (displayBoardingPassExecute demoStore 1).2 ∧
    (displayBoardingPassExecute demoStore 1).1 =
      .pass ⟨1, "Jane Doe", "UA100", "12A, 12B", demoDeparture, demoArrival⟩ := by
  refine ⟨rfl, ?_, rfl⟩
  intro hmem
  simp [displayBoardingPassExecute] at hmem

/-- C8 amended: among the operations that read or mutate a Chat or
Reservation, only `createReservation.execute` re-resolves `auth()` at
execution time; `verifyPayment.execute` and `displayBoardingPass.execute`
read the reservation store with no `auth` call (the ownership re-check exists
only in comments), and the completion-time chat save is guarded by the
session captured at request entry, without a fresh `auth()` call. -/
theorem only_createReservation_rechecks_identity :
    (∀ price execAuth props store,
      DbCall.auth ∈ (createReservationExecute price execAuth props store).2.2) ∧
    (∀ store rid, DbCall.auth ∉ (verifyPaymentExecute store rid).2) ∧
    (∀ store rid, DbCall.auth ∉ (displayBoardingPassExecute store rid).2) ∧
    (∀ session chatId core rms chats,
      DbCall.auth ∉ (onFinish session chatId core rms chats).2) := by
  refine ⟨?_, ?_, ?_, ?_⟩
  · intro price execAuth props store
    cases h : sessionUserId execAuth <;>
      simp [createReservationExecute, h]
  · intro store rid
    simp [verifyPaymentExecute]
  · intro store rid
    simp [displayBoardingPassExecute]
  · intro session chatId core rms chats
    cases h : sessionUserId (some session) <;>
      simp [onFinish, h]

/-- C8 amended witness: the session re-check of `createReservation.execute`
fires on the sample inputs. -/
theorem only_createReservation_rechecks_identity_witness :
    DbCall.auth ∈
      (createReservationExecute (fun _ => 650) (some demoSession) demoProps
        demoStore).2.2 :=
  only_createReservation_rechecks_identity.1 (fun _ => 650) (some demoSession)
    demoProps demoStore

/-- C9: A DELETE request without the `id` query parameter gets a 400 response
with an error payload, and the check happens before any authentication or
store access: whatever the session would resolve to and whatever the store
holds, the collaborator trace is empty and the store unchanged. -/
theorem delete_missing_id_bad_request (authResult : Option Session)
    (chats : ChatStore) :
    DELETE none authResult chats = (⟨400, "Chat ID is required"⟩, chats, []) := rfl

/-- C10: A POST authenticated by a session that lacks a user id still streams
the model response built from the normalized core messages, but the chat is
never persisted — the completion guard skips `saveChat`, the chat store is
unchanged and the collaborator trace after entry is empty. -/
theorem session_without_user_id_streams_without_persisting (req : PostRequest)
    (session : Session) (responseMessages : List CoreMessage) (chats : ChatStore)
    (h : sessionUserId (some session) = none) :
    POST req (some session) responseMessages chats =
      (.stream (coreMessagesOf req.messages), chats, []) := by
  simp [POST, onFinish, h]

/-- C10 witness: a session whose user has no id streams the reply yet leaves
the chat store untouched. -/
theorem session_without_user_id_streams_without_persisting_witness :
    POST ⟨"chat-1", [⟨"user", "hi"⟩]⟩ (some ⟨some ⟨none⟩⟩) [⟨"assistant", "hello"⟩]
        demoChats =
      (.stream [⟨"user", "hi"⟩], demoChats, []) :=
  session_without_user_id_streams_without_persisting
    ⟨"chat-1", [⟨"user", "hi"⟩]⟩ ⟨some ⟨none⟩⟩ [⟨"assistant", "hello"⟩] demoChats rfl

end GeminiChatbot
